import Mathlib

/-!
Shallow embedding of the analysis pipeline of `test.py` (Program Tester):
the static analyzers (syntax_check, style_check, risky_patterns, comment_stats,
ComplexityVisitor, docstrings_and_naming), the sandbox run-result handling
(safe_run / run_basic_unit_test), the worker-thread gating logic
(_run_checks_thread) and the verdict scorer (verdict).

Pure functions of the source are translated into executable Lean definitions.
The CPython front end (compile / ast.parse), the lexical tokenizer and the
subprocess layer are platform primitives, modelled as explicit oracles
(`PyFrontend`, `ProcOutcome`): a parse either succeeds with a module tree or
fails with a SyntaxError value, exactly the interface the source consumes.
-/

namespace ProgramTester

/-- Python `cs.rstrip(chars)` on a character list: remove the longest trailing
run of characters drawn from `chars`. -/
def pyRstrip (cs : List Char) (chars : List Char) : List Char :=
  ((cs.reverse).dropWhile (fun c => chars.contains c)).reverse

/-- Python `line.startswith(c)` for a single-character prefix. -/
def startsWithChar (c : Char) : List Char → Bool
  | [] => false
  | d :: _ => d == c

/-- Python `s.startswith(pre)`. -/
def pyStartsWith (s pre : String) : Bool :=
  pre.toList.isPrefixOf s.toList

/-- Python `s.endswith(suf)`. -/
def pyEndsWith (s suf : String) : Bool :=
  suf.toList.isSuffixOf s.toList

/-- Python `x or d` for an optional string `x`: the default is taken when `x`
is absent or empty (empty strings are falsy in Python). -/
def pyOr (x : Option String) (d : String) : String :=
  match x with
  | none => d
  | some s => if s.isEmpty then d else s

/-- `SNAKE_CASE_RE = ^[a-z_][a-z0-9_]*$` (test.py line 58), as a full match on
the name's characters. -/
def isLowerSnake (s : String) : Bool :=
  match s.toList with
  | [] => false
  | c :: rest =>
    (c.isLower || c == '_') && rest.all (fun d => d.isLower || d.isDigit || d == '_')

/-- `PASCAL_CASE_RE = ^[A-Z][A-Za-z0-9]*$` (test.py line 59). -/
def isPascal (s : String) : Bool :=
  match s.toList with
  | [] => false
  | c :: rest => c.isUpper && rest.all (fun d => d.isAlpha || d.isDigit)

/-- Python `s[-n:]`: the last `n` characters of a string. -/
def strTail (n : Nat) (s : String) : String :=
  ⟨(s.toList.reverse.take n).reverse⟩

/-- The line-break characters recognised by Python `str.splitlines`. -/
def isLineBreak (c : Char) : Bool :=
  c == '\n' || c == '\r' || c == '\x0b' || c == '\x0c' ||
  c == '\x1c' || c == '\x1d' || c == '\x1e' || c == '\x85' ||
  c == '\u2028' || c == '\u2029'

/-- Python `source.splitlines(True)` (keepends), on the character list:
"\r\n" is one line boundary, every other break character ends its line. -/
def splitKeepAux (acc : List Char) : List Char → List (List Char)
  | [] => if acc.isEmpty then [] else [acc.reverse]
  | '\r' :: '\n' :: rest => (acc.reverse ++ ['\r', '\n']) :: splitKeepAux [] rest
  | c :: rest =>
    if isLineBreak c then (acc.reverse ++ [c]) :: splitKeepAux [] rest
    else splitKeepAux (c :: acc) rest

/-- The lines of a source text, with line endings kept, as `splitlines(True)`
produces them. -/
def pySplitKeepends (source : String) : List (List Char) :=
  splitKeepAux [] source.toList

-- ----------------------------
-- Report data (the dict shapes produced by the analyzers)
-- ----------------------------

/-- The SyntaxError value produced by the front end: `str(e)`, `e.lineno`,
`e.offset` and `e.text` (the offending line, possibly absent). -/
structure SynError where
  msg : String
  lineno : Option Int
  offset : Option Int
  text : Option String
  deriving Repr, DecidableEq

/-- A Python exception crossing a function boundary; the front-end compile
step raises SyntaxError on invalid source. -/
inductive PyExc where
  | synErr (e : SynError)
  | otherErr (msg : String)
  deriving Repr, DecidableEq

/-- The `error` record built by syntax_check (test.py lines 115-123). -/
structure SynRecord where
  etype : String
  msg : String
  lineno : Option Int
  offset : Option Int
  text : String
  deriving Repr, DecidableEq

/-- The dict returned by syntax_check: `{ok, error}`. -/
structure SyntaxResult where
  ok : Bool
  error : Option SynRecord
  deriving Repr, DecidableEq

/-- The `counts` dict of style_check (test.py lines 130-136). -/
structure StyleCounts where
  total_lines : Nat
  long_lines_gt_100 : Nat
  trailing_whitespace_lines : Nat
  tab_char_lines : Nat
  mixed_indentation : Nat
  deriving Repr, DecidableEq

/-- One style issue entry `{line, type, detail}`; the whole-file
MixedIndentation issue carries no line. -/
structure StyleIssue where
  line : Option Nat
  type : String
  detail : String
  deriving Repr, DecidableEq

/-- The dict returned by style_check. -/
structure StyleReport where
  counts : StyleCounts
  issues : List StyleIssue
  deriving Repr, DecidableEq

/-- One risky-pattern hit `{pattern, detail}`. -/
structure RiskFlag where
  pattern : String
  detail : String
  deriving Repr, DecidableEq

/-- The dict returned by risky_patterns. -/
structure RiskReport where
  flags : List RiskFlag
  deriving Repr, DecidableEq

/-- The dict returned by comment_stats (the float `comment_density` is
derived from `comment_lines / total_lines` and never read downstream). -/
structure CommentReport where
  comment_lines : Nat
  total_lines : Nat
  sample_comments : List String
  deriving Repr, DecidableEq

/-- Per-function record collected by docstrings_and_naming. -/
structure FnInfo where
  name : String
  lineno : Int
  has_docstring : Bool
  deriving Repr, DecidableEq

/-- Per-class record collected by docstrings_and_naming. -/
structure ClsInfo where
  name : String
  lineno : Int
  has_docstring : Bool
  deriving Repr, DecidableEq

/-- One naming violation `{type, name, lineno}`. -/
structure NamingIssue where
  type : String
  name : String
  lineno : Int
  deriving Repr, DecidableEq

/-- The dict returned by docstrings_and_naming. -/
structure DocNaming where
  module_has_docstring : Bool
  module_docstring_length : Nat
  functions : List FnInfo
  classes : List ClsInfo
  missing_function_docstrings : Nat
  missing_class_docstrings : Nat
  naming_issues : List NamingIssue
  deriving Repr, DecidableEq

/-- One complexity entry `{name, lineno, complexity}`. -/
structure CompEntry where
  name : String
  lineno : Int
  complexity : Nat
  deriving Repr, DecidableEq

/-- The `ast` block of the static report: present analysis when syntax was
valid, otherwise `ok := false` with a reason. -/
structure AstBlock where
  ok : Bool
  error : Option String
  docstrings_naming : Option DocNaming
  complexity_top5 : List CompEntry
  complexity_all : List CompEntry
  deriving Repr, DecidableEq

/-- The aggregate dict returned by static_analysis (the `syntax` key is named
`syn` here because `syntax` is a reserved word in Lean). -/
structure StaticRep where
  syn : SyntaxResult
  style : StyleReport
  risky_patterns : RiskReport
  comments : CommentReport
  ast : AstBlock
  deriving Repr, DecidableEq

/-- The RunResult dataclass of test.py (lines 62-69); `seconds` is wall-clock
environment data and is not modelled. -/
structure RunResult where
  ok : Bool
  returncode : Int
  stdout : String
  stderr : String
  timed_out : Bool
  deriving Repr, DecidableEq

/-- The behaviour of the spawned child process: either it completed with an
exit code and captured output, or the timeout expired with partial output
(`subprocess.TimeoutExpired` carries optional stdout/stderr). -/
inductive ProcOutcome where
  | completed (returncode : Int) (out err : String)
  | timedOut (out err : Option String)
  deriving Repr, DecidableEq

/-- The dict returned by run_basic_unit_test (`command` and the rounded
`seconds` are presentation data and are not modelled). -/
structure TestRep where
  ok : Bool
  returncode : Int
  timed_out : Bool
  stdout : String
  stderr : String
  deriving Repr, DecidableEq

/-- The dict returned by verdict: `{score, level, notes}`. -/
structure Verdict where
  score : Int
  level : String
  notes : List String
  deriving Repr, DecidableEq

-- ----------------------------
-- safe_run and the test-report shape
-- ----------------------------

/-- safe_run (test.py lines 79-107): wraps the child-process outcome into a
RunResult; on completion `ok` is `returncode == 0`, on timeout the result is
the sentinel `{ok:false, returncode:124, timed_out:true}` with the partial
output (Python `x or default` semantics on the captured streams). -/
def safe_run (outcome : ProcOutcome) : RunResult :=
  match outcome with
  | .completed rc out err => ⟨rc == 0, rc, out, err, false⟩
  | .timedOut out err =>
    ⟨false, 124, pyOr out "", pyOr err "Process timed out.", true⟩

/-- The dict built at the end of run_basic_unit_test (test.py lines 342-350)
from the selected RunResult: the stdout/stderr tails are the last 20000
characters. -/
def testReportOf (rr : RunResult) : TestRep :=
  ⟨rr.ok, rr.returncode, rr.timed_out, strTail 20000 rr.stdout, strTail 20000 rr.stderr⟩

-- ----------------------------
-- The verdict scorer
-- ----------------------------

/-- The level expression of verdict (test.py line 399). -/
def levelOf (score : Int) : String :=
  if score ≥ 90 then "Excellent"
  else if score ≥ 75 then "Good"
  else if score ≥ 55 then "Fair"
  else "Poor"

/-- One deduction of the verdict scorer: a triggered flag, the amount
subtracted, and the note appended exactly when the flag is set. -/
structure Step where
  hit : Bool
  ded : Nat
  note : String
  deriving Repr, DecidableEq

/-- Runs the scorer's deduction sequence over a running (score, notes) pair:
each step, in order, subtracts its amount and appends its note when its
condition triggered, exactly like the successive `if` blocks of verdict. -/
def applySteps : List Step → Int × List String → Int × List String
  | [], st => st
  | stp :: rest, (sc, ns) =>
    applySteps rest (if stp.hit then (sc - (stp.ded : Int), ns ++ [stp.note]) else (sc, ns))

/-- The docstrings/naming block the scorer reads; absent (syntax invalid)
blocks read as the empty record, which verdict never consults because every
read is guarded by `ast.ok`. -/
def emptyDocNaming : DocNaming := ⟨false, 0, [], [], 0, 0, []⟩

/-- The `docstrings_naming` sub-dict as verdict accesses it. -/
def dsField (s : StaticRep) : DocNaming :=
  s.ast.docstrings_naming.getD emptyDocNaming

/-- The static-report deductions of verdict (test.py lines 357-388), in
source order, with the source's exact amounts and note strings. -/
def staticSteps (s : StaticRep) : List Step :=
  let ll := s.style.counts.long_lines_gt_100
  let nr := s.risky_patterns.flags.length
  let ds := dsField s
  let mfd := ds.missing_function_docstrings
  let ni := ds.naming_issues.length
  [ ⟨!s.syn.ok, 80, "Syntax error: the file does not compile."⟩,
    ⟨s.style.counts.mixed_indentation != 0, 10, "Mixed indentation (tabs + spaces)."⟩,
    ⟨ll != 0, min 10 (ll / 10 + 1), toString ll ++ " long lines (> 100 chars)."⟩,
    ⟨nr != 0, min 25 (5 * nr), "Risky patterns detected: " ++ toString nr ++ " hit(s)."⟩,
    ⟨s.ast.ok && !ds.module_has_docstring, 5, "Missing module docstring."⟩,
    ⟨s.ast.ok && (mfd != 0), min 10 mfd, toString mfd ++ " function(s) missing docstrings."⟩,
    ⟨s.ast.ok && (ni != 0), min 10 ni,
      "Naming convention issues: " ++ toString ni ++ " item(s)."⟩ ]

/-- The test-report deductions of verdict (test.py lines 390-396): with no
test report the block is skipped (both steps unarmed). -/
def testSteps : Option TestRep → List Step
  | none => [⟨false, 30, "Unit test failed (or crashed)."⟩, ⟨false, 20, "Unit test timed out."⟩]
  | some r => [⟨!r.ok, 30, "Unit test failed (or crashed)."⟩, ⟨r.timed_out, 20, "Unit test timed out."⟩]

/-- All deductions of verdict in source order. -/
def verdictSteps (s : StaticRep) (t : Option TestRep) : List Step :=
  staticSteps s ++ testSteps t

/-- The (score, notes) state of verdict just before the final clamp
(test.py line 398). -/
def verdictPre (s : StaticRep) (t : Option TestRep) : Int × List String :=
  applySteps (verdictSteps s t) (100, [])

/-- verdict (test.py lines 353-400): 100 minus the triggered deductions,
clamped to [0,100], the four-threshold level, and the collected notes. -/
def verdict (s : StaticRep) (t : Option TestRep) : Verdict :=
  let score := max 0 (min 100 (verdictPre s t).1)
  ⟨score, levelOf score, (verdictPre s t).2⟩

/-- The note lines shown in the report's summary (_render_report, test.py
lines 695-700): the verdict's notes, or the single no-major-issues line when
no note was produced. -/
def renderedNotes (v : Verdict) : List String :=
  if v.notes.isEmpty then ["No major issues detected."] else v.notes

-- ----------------------------
-- Generic facts about the deduction sequence
-- ----------------------------

/-- Total of the triggered deductions. -/
def dedSum (steps : List Step) : Nat :=
  ((steps.filter (fun st => st.hit)).map (fun st => st.ded)).sum

/-- Notes of the triggered deductions, in order. -/
def hitNotes (steps : List Step) : List String :=
  (steps.filter (fun st => st.hit)).map (fun st => st.note)

-- ----------------------------
-- style_check
-- ----------------------------

/-- The per-line issues of style_check (test.py lines 141-148): a LongLine
issue when the newline-stripped line exceeds 100 characters, then a
TrailingWhitespace issue when it ends in spaces or tabs. -/
def lineIssues (i : Nat) (line : List Char) : List StyleIssue :=
  let raw := pyRstrip line ['\n']
  (if raw.length > 100 then
    [⟨some i, "LongLine", "Length=" ++ toString raw.length ++ " > 100"⟩] else []) ++
  (if raw ≠ pyRstrip raw [' ', '\t'] then
    [⟨some i, "TrailingWhitespace", "Trailing spaces/tabs"⟩] else [])

/-- The has_tab_indent tracker of style_check: some line starts with a tab. -/
def hasTabIndent (lines : List (List Char)) : Bool :=
  lines.any (startsWithChar '\t')

/-- The has_space_indent tracker of style_check: some line starts with a
space. -/
def hasSpaceIndent (lines : List (List Char)) : Bool :=
  lines.any (startsWithChar ' ')

/-- The full issue list style_check builds before the 200-entry cap: the
per-line issues in line order (lines numbered from 1), then the single
whole-file MixedIndentation issue when both indentation styles occurred. -/
def styleIssuesRaw (source : String) : List StyleIssue :=
  let lines := pySplitKeepends source
  ((lines.enumFrom 1).flatMap (fun p => lineIssues p.1 p.2)) ++
  (if hasTabIndent lines && hasSpaceIndent lines then
    [⟨none, "MixedIndentation", "Both tabs and spaces used for indentation"⟩] else [])

/-- style_check (test.py lines 127-160): the per-line counters, the
file-scoped mixed-indentation flag, and the issue list capped at 200. -/
def style_check (source : String) : StyleReport :=
  let lines := pySplitKeepends source
  { counts :=
      { total_lines := lines.length
        long_lines_gt_100 := lines.countP (fun l => decide ((pyRstrip l ['\n']).length > 100))
        trailing_whitespace_lines := lines.countP (fun l =>
          let raw := pyRstrip l ['\n']
          decide (raw ≠ pyRstrip raw [' ', '\t']))
        tab_char_lines := lines.countP (fun l => l.contains '\t')
        mixed_indentation := if hasTabIndent lines && hasSpaceIndent lines then 1 else 0 }
    issues := (styleIssuesRaw source).take 200 }

-- ----------------------------
-- risky_patterns
-- ----------------------------

/-- The fixed pattern table of risky_patterns (test.py lines 165-172), in
insertion order. -/
def riskTable : List (String × String) :=
  [("eval(", "Use of eval()"),
   ("exec(", "Use of exec()"),
   ("os.system", "Shell execution via os.system"),
   ("subprocess.Popen", "Process spawning via subprocess.Popen"),
   ("pickle.loads", "Unsafe deserialization risk (pickle.loads)"),
   ("import *", "Wildcard import reduces clarity")]

/-- Python substring containment `pat in s`, on character lists. -/
def strContains (pat : List Char) : List Char → Bool
  | [] => pat.isEmpty
  | c :: rest => pat.isPrefixOf (c :: rest) || strContains pat rest

/-- risky_patterns (test.py lines 163-176): one flag per table entry whose
key occurs as a substring of the source, in table order. -/
def risky_patterns (source : String) : RiskReport :=
  ⟨riskTable.filterMap (fun p =>
    if strContains p.1.toList source.toList then some ⟨p.1, p.2⟩ else none)⟩

-- ----------------------------
-- The Python AST fragment the analyzers walk
-- ----------------------------

/-- The node kinds the analyzers distinguish: the control-flow and
boolean-operator kinds counted by ComplexityVisitor._complexity_of, the
definition kinds inspected by the visitor and by docstrings_and_naming
(with ast.get_docstring modelled as a field), and an opaque kind for every
other Python construct. -/
inductive PyKind : Type where
  | kIf
  | kFor
  | kWhile
  | kWith
  | kAsyncWith
  | kTry
  | kExceptHandler
  | kBoolOp (nvalues : Nat)
  | kMatch
  | kFunctionDef (name : String) (lineno : Int) (docstring : Option String)
  | kAsyncFunctionDef (name : String) (lineno : Int) (docstring : Option String)
  | kClassDef (name : String) (lineno : Int) (docstring : Option String)
  | kOther
  deriving Repr, DecidableEq

mutual

/-- A Python AST node: its kind and its child nodes. -/
inductive PyNode : Type where
  | node (kind : PyKind) (children : PyForest)

/-- A sequence of sibling AST nodes (a dedicated type so the walks below are
structurally recursive). -/
inductive PyForest : Type where
  | nil
  | cons (hd : PyNode) (tl : PyForest)

end

/-- A parsed module: ast.get_docstring(tree) and the top-level body. -/
structure PyModule where
  doc : Option String
  body : PyForest

/-- The per-node increment of ComplexityVisitor._complexity_of (test.py
lines 215-224): 1 for each conditional, loop, with/async-with block, try
block and except clause, max(1, n-1) for a BoolOp over n operands, 1 for a
match statement, 0 otherwise. -/
def nodeInc (k : PyKind) : Nat :=
  match k with
  | .kIf | .kFor | .kWhile | .kWith | .kAsyncWith | .kTry | .kExceptHandler => 1
  | .kBoolOp nv => max 1 (nv - 1)
  | .kMatch => 1
  | _ => 0

mutual

/-- Sum of the `_complexity_of` increments over a node's whole subtree
(ast.walk enumerates the node and all its descendants; the walk order is
irrelevant because only this sum is consumed). -/
def incN : PyNode → Nat
  | .node k cs => nodeInc k + incF cs

/-- Sum of the increments over a forest of subtrees. -/
def incF : PyForest → Nat
  | .nil => 0
  | .cons n rest => incN n + incF rest

end

/-- _complexity_of: 1 plus the walk-sum of increments. -/
def complexityOf (n : PyNode) : Nat := 1 + incN n

mutual

/-- ComplexityVisitor dispatch on one node (test.py lines 205-213): a
function or async-function definition records (name, lineno, complexity)
and then generic_visit recurses into its children; every other node kind
only recurses. -/
def visitN : PyNode → List CompEntry
  | .node (.kFunctionDef nm ln d) cs =>
    ⟨nm, ln, complexityOf (.node (.kFunctionDef nm ln d) cs)⟩ :: visitF cs
  | .node (.kAsyncFunctionDef nm ln d) cs =>
    ⟨nm, ln, complexityOf (.node (.kAsyncFunctionDef nm ln d) cs)⟩ :: visitF cs
  | .node _ cs => visitF cs

/-- Visit a forest left to right. -/
def visitF : PyForest → List CompEntry
  | .nil => []
  | .cons n rest => visitN n ++ visitF rest

end

/-- cv.visit(tree) on a Module: generic_visit over the top-level body;
the collected function_complexities, in visit (preorder) order. -/
def moduleComplexities (m : PyModule) : List CompEntry := visitF m.body

mutual

/-- Sum of a per-kind weight over a node's subtree (the specification-side
counters used to restate the complexity score). -/
def weighN (w : PyKind → Nat) : PyNode → Nat
  | .node k cs => w k + weighF w cs

/-- Sum of a per-kind weight over a forest. -/
def weighF (w : PyKind → Nat) : PyForest → Nat
  | .nil => 0
  | .cons n rest => weighN w n + weighF w rest

end

/-- Weight 1 on conditional branches, loops, resource-scoping blocks,
exception-handling blocks and exception clauses. -/
def branchWeight : PyKind → Nat
  | .kIf | .kFor | .kWhile | .kWith | .kAsyncWith | .kTry | .kExceptHandler => 1
  | _ => 0

/-- Weight max(1, n-1) on short-circuit boolean combinations with n
operands. -/
def boolWeight : PyKind → Nat
  | .kBoolOp nv => max 1 (nv - 1)
  | _ => 0

/-- Weight 1 on pattern-match constructs. -/
def matchWeight : PyKind → Nat
  | .kMatch => 1
  | _ => 0

mutual

/-- The function/method definition subtrees of a node, in visit order. -/
def fnSubtreesN : PyNode → List PyNode
  | .node (.kFunctionDef nm ln d) cs =>
    .node (.kFunctionDef nm ln d) cs :: fnSubtreesF cs
  | .node (.kAsyncFunctionDef nm ln d) cs =>
    .node (.kAsyncFunctionDef nm ln d) cs :: fnSubtreesF cs
  | .node _ cs => fnSubtreesF cs

/-- The function/method definition subtrees of a forest, in visit order. -/
def fnSubtreesF : PyForest → List PyNode
  | .nil => []
  | .cons n rest => fnSubtreesN n ++ fnSubtreesF rest

end

/-- The name of a definition node (its kind carries it). -/
def defName : PyNode → String
  | .node (.kFunctionDef nm _ _) _ => nm
  | .node (.kAsyncFunctionDef nm _ _) _ => nm
  | .node (.kClassDef nm _ _) _ => nm
  | _ => ""

/-- The line number of a definition node. -/
def defLine : PyNode → Int
  | .node (.kFunctionDef _ ln _) _ => ln
  | .node (.kAsyncFunctionDef _ ln _) _ => ln
  | .node (.kClassDef _ ln _) _ => ln
  | _ => 0

-- ----------------------------
-- docstrings_and_naming
-- ----------------------------

/-- The exemption of the function naming check (test.py line 237): a leading
underscore, or dunder-bracketed (the latter is subsumed by the former). -/
def fnNameExempt (nm : String) : Bool :=
  pyStartsWith nm "_" || (pyStartsWith nm "__" && pyEndsWith nm "__")

/-- The (fn_info, cls_info, naming_issues) lists accumulated by the loop of
docstrings_and_naming over the module's top-level body (test.py lines
233-245); only direct children of the module are inspected. -/
def dnFold : PyForest → List FnInfo × List ClsInfo × List NamingIssue
  | .nil => ([], [], [])
  | .cons (.node k _) rest =>
    let acc := dnFold rest
    match k with
    | .kFunctionDef nm ln d =>
      (⟨nm, ln, d.isSome⟩ :: acc.1, acc.2.1,
       if !fnNameExempt nm && !isLowerSnake nm then
         ⟨"FunctionNameNotSnakeCase", nm, ln⟩ :: acc.2.2
       else acc.2.2)
    | .kAsyncFunctionDef nm ln d =>
      (⟨nm, ln, d.isSome⟩ :: acc.1, acc.2.1,
       if !fnNameExempt nm && !isLowerSnake nm then
         ⟨"FunctionNameNotSnakeCase", nm, ln⟩ :: acc.2.2
       else acc.2.2)
    | .kClassDef nm ln d =>
      (acc.1, ⟨nm, ln, d.isSome⟩ :: acc.2.1,
       if !pyStartsWith nm "_" && !isPascal nm then
         ⟨"ClassNameNotPascalCase", nm, ln⟩ :: acc.2.2
       else acc.2.2)
    | _ => acc

/-- docstrings_and_naming (test.py lines 227-258). -/
def docstrings_and_naming (m : PyModule) : DocNaming :=
  let acc := dnFold m.body
  { module_has_docstring := m.doc.isSome
    module_docstring_length := (m.doc.getD "").length
    functions := acc.1
    classes := acc.2.1
    missing_function_docstrings := acc.1.countP (fun f => !f.has_docstring)
    missing_class_docstrings := acc.2.1.countP (fun c => !c.has_docstring)
    naming_issues := acc.2.2 }

-- ----------------------------
-- The front-end oracle, syntax_check, comment_stats, static_analysis
-- ----------------------------

/-- The CPython front end and tokenizer, as the oracle the pipeline calls:
`parse` models compile(source, ..., "exec") / ast.parse(source) (success
yields the module tree, failure a SyntaxError value); `commentTokens` models
the comment tokens yielded by tokenize.generate_tokens, with `none` when
tokenization itself fails. -/
structure PyFrontend where
  parse : String → Except SynError PyModule
  commentTokens : String → Option (List String)

/-- The compile call of syntax_check: raises SyntaxError exactly when the
parse fails. -/
def compileCall (F : PyFrontend) (source : String) : Except PyExc Unit :=
  match F.parse source with
  | .ok _ => .ok ()
  | .error e => .error (.synErr e)

/-- syntax_check (test.py lines 110-124), named synCheck here: the
SyntaxError raised by compile is caught and rendered as the error record
{type:"SyntaxError", msg, lineno, offset, text} with trailing newlines
stripped from `e.text or ""`; any exception other than SyntaxError would
propagate past the boundary (the `.error` result), and none ever does. -/
def synCheck (F : PyFrontend) (source : String) : Except PyExc SyntaxResult :=
  match compileCall F source with
  | .ok _ => .ok ⟨true, none⟩
  | .error (.synErr e) =>
    .ok ⟨false, some ⟨"SyntaxError", e.msg, e.lineno, e.offset,
      ⟨pyRstrip (pyOr e.text "").toList ['\n']⟩⟩⟩
  | .error exc => .error exc

/-- Python `s.lstrip(chars)` on a character list. -/
def pyLstrip (cs : List Char) (chars : List Char) : List Char :=
  cs.dropWhile (fun c => chars.contains c)

/-- The whitespace set of Python `str.strip()` (ASCII part). -/
def pyWs : List Char := [' ', '\t', '\n', '\r', '\x0b', '\x0c']

/-- Python `s.strip()`. -/
def pyStrip (cs : List Char) : List Char := pyRstrip (pyLstrip cs pyWs) pyWs

/-- comment_stats (test.py lines 179-198): each comment token stripped of
its leading '#' markers and surrounding whitespace; a tokenizer failure
degrades to no comments; `total_lines` is `max 1 (number of lines)`. -/
def comment_stats (F : PyFrontend) (source : String) : CommentReport :=
  let comments :=
    match F.commentTokens source with
    | some toks => toks.map (fun (t : String) => (⟨pyStrip (pyLstrip t.toList ['#'])⟩ : String))
    | none => []
  { comment_lines := comments.length
    total_lines := max 1 (pySplitKeepends source).length
    sample_comments := comments.take 8 }

/-- The AST-dependent block of static_analysis (test.py lines 271-283): the
visitor's complexity entries sorted by descending complexity (Python sorted
is stable, so ties keep discovery order), the docstrings/naming report, and
the top five. -/
def astBlockOf (m : PyModule) : AstBlock :=
  let sorted := (moduleComplexities m).mergeSort
    (fun a b => Nat.ble b.complexity a.complexity)
  { ok := true
    error := none
    docstrings_naming := some (docstrings_and_naming m)
    complexity_top5 := sorted.take 5
    complexity_all := sorted }

/-- static_analysis (test.py lines 261-293); `source` is the loaded text of
the uploaded file. The syntax result gates the AST block. syntax_check never
raises, so the propagated-exception branch here is dead (synCheck_never_raises
below). -/
def static_analysis (F : PyFrontend) (source : String) : StaticRep :=
  let syn :=
    match synCheck F source with
    | .ok r => r
    | .error _ => ⟨false, none⟩
  { syn := syn
    style := style_check source
    risky_patterns := risky_patterns source
    comments := comment_stats F source
    ast :=
      if syn.ok then
        match F.parse source with
        | .ok m => astBlockOf m
        | .error e => ⟨false, some e.msg, none, [], []⟩
      else ⟨false, some "Skipped due to syntax error.", none, [], []⟩ }

/-- The pipeline body of ProgramTesterApp._run_checks_thread (test.py lines
678-686): run the static analysis, run the sandbox unit test only when the
syntax check succeeded (`T` models the outcome of run_basic_unit_test), and
compute the verdict from both. -/
def run_checks (F : PyFrontend) (T : Unit → TestRep) (source : String) :
    StaticRep × Option TestRep × Verdict :=
  let s := static_analysis F source
  let t : Option TestRep := if s.syn.ok then some (T ()) else none
  (s, t, verdict s t)

-- ----------------------------
-- Specification-side definitions used to state the claims
-- ----------------------------

/-- The leading-indentation run of a line: its longest prefix of spaces and
tabs (used to state what "the line's indentation" contains). -/
def indentRun (l : List Char) : List Char :=
  l.takeWhile (fun c => c == ' ' || c == '\t')

/-- The top-level naming rule of the specification, per module-body node:
a function or async-function whose name has no leading underscore and fails
the lowercase snake pattern is flagged, a class whose name has no leading
underscore and fails the Pascal pattern is flagged. -/
def topLevelNamingIssue : PyNode → Option NamingIssue
  | .node (.kFunctionDef nm ln _) _ =>
    if !pyStartsWith nm "_" && !isLowerSnake nm then
      some ⟨"FunctionNameNotSnakeCase", nm, ln⟩ else none
  | .node (.kAsyncFunctionDef nm ln _) _ =>
    if !pyStartsWith nm "_" && !isLowerSnake nm then
      some ⟨"FunctionNameNotSnakeCase", nm, ln⟩ else none
  | .node (.kClassDef nm ln _) _ =>
    if !pyStartsWith nm "_" && !isPascal nm then
      some ⟨"ClassNameNotPascalCase", nm, ln⟩ else none
  | _ => none

/-- filterMap over a forest of top-level nodes. -/
def forestFilterMap {α : Type} (f : PyNode → Option α) : PyForest → List α
  | .nil => []
  | .cons n rest =>
    match f n with
    | some a => a :: forestFilterMap f rest
    | none => forestFilterMap f rest

-- ----------------------------
-- Concrete fixtures used by witnesses and counterexamples
-- ----------------------------

/-- A front end whose parse always fails with a fixed SyntaxError (models
uploading a file CPython rejects). -/
def badFrontend : PyFrontend :=
  ⟨fun _ => .error ⟨"invalid syntax", some 1, some 7, some "def f(:\n"⟩,
   fun _ => some []⟩

/-- A stub sandbox runner outcome (a clean unit-test pass). -/
def stubTest : Unit → TestRep := fun _ => ⟨true, 0, false, "", ""⟩

/-- A minimal clean Python file: a module docstring and one documented
lower-snake function, no long lines, no tabs, no risky substrings. -/
def minSource : String :=
  "\"\"\"Module doc.\"\"\"\n\n\ndef my_func():\n    \"\"\"Doc.\"\"\"\n    return 1\n"

/-- The parse tree of `minSource`: a module docstring and one documented
function whose body is a plain return statement. -/
def minModule : PyModule :=
  ⟨some "Module doc.",
   .cons (.node (.kFunctionDef "my_func" 4 (some "Doc."))
     (.cons (.node .kOther .nil) .nil)) .nil⟩

/-- A front end that parses `minSource` to `minModule` and sees no comment
tokens. -/
def minFrontend : PyFrontend :=
  ⟨fun _ => .ok minModule, fun _ => some []⟩

/-- First static report for the claim-10 witness: comment and
trailing-whitespace counters, tab counts, class docstrings and complexity
entries all populated. -/
def c10A : StaticRep :=
  { syn := ⟨true, none⟩
    style := ⟨⟨10, 0, 3, 2, 0⟩, [⟨some 1, "TrailingWhitespace", "Trailing spaces/tabs"⟩]⟩
    risky_patterns := ⟨[]⟩
    comments := ⟨5, 10, ["top comment"]⟩
    ast := ⟨true, none,
      some ⟨true, 12, [⟨"f", 1, true⟩], [⟨"C", 2, false⟩], 0, 1, []⟩,
      [⟨"f", 1, 7⟩], [⟨"f", 1, 7⟩]⟩ }

/-- Second static report for the claim-10 witness: it agrees with `c10A` on
every field the scorer reads and differs on all the others. -/
def c10B : StaticRep :=
  { syn := ⟨true, none⟩
    style := ⟨⟨99, 0, 0, 0, 0⟩, []⟩
    risky_patterns := ⟨[]⟩
    comments := ⟨0, 1, []⟩
    ast := ⟨true, none,
      some ⟨true, 30, [⟨"g", 5, true⟩, ⟨"h", 9, true⟩], [], 0, 0, []⟩,
      [⟨"g", 5, 1⟩, ⟨"h", 9, 1⟩], [⟨"g", 5, 1⟩, ⟨"h", 9, 1⟩]⟩ }

/-- The counterexample module for the naming claim: a Pascal-named class
with a camel-cased method. -/
def methodModule : PyModule :=
  ⟨none,
   .cons (.node (.kClassDef "Container" 1 none)
     (.cons (.node (.kFunctionDef "BadMethod" 2 none) .nil) .nil)) .nil⟩

-- ----------------------------
-- Theorems: generic facts about the deduction sequence
-- ----------------------------

theorem applySteps_fst (steps : List Step) (sc : Int) (ns : List String) :
    (applySteps steps (sc, ns)).1 = sc - (dedSum steps : Int) := by
  induction steps generalizing sc ns with
  | nil => simp [applySteps, dedSum]
  | cons stp rest ih =>
    by_cases h : stp.hit = true <;>
      simp only [applySteps, dedSum, List.filter_cons, h, Bool.false_eq_true,
        ite_true, ite_false, List.map_cons, List.sum_cons] <;>
      rw [ih] <;> push_cast <;> ring_nf <;> simp [dedSum]

theorem applySteps_snd (steps : List Step) (sc : Int) (ns : List String) :
    (applySteps steps (sc, ns)).2 = ns ++ hitNotes steps := by
  induction steps generalizing sc ns with
  | nil => simp [applySteps, hitNotes]
  | cons stp rest ih =>
    by_cases h : stp.hit = true <;>
      simp [applySteps, hitNotes, List.filter_cons, h, ih]

theorem dedSum_le_of_mem {steps : List Step} {st : Step}
    (hmem : st ∈ steps) (hhit : st.hit = true) : st.ded ≤ dedSum steps := by
  induction steps with
  | nil => cases hmem
  | cons hd rest ih =>
    rcases List.mem_cons.mp hmem with h | h
    · subst h
      simp [dedSum, List.filter_cons, hhit]
    · by_cases hh : hd.hit = true <;>
        simp only [dedSum, List.filter_cons, hh, ite_true, ite_false, Bool.false_eq_true,
          List.map_cons, List.sum_cons] <;>
        have := ih h <;> simp [dedSum] at this ⊢ <;> omega

theorem dedSum_append (a b : List Step) : dedSum (a ++ b) = dedSum a + dedSum b := by
  simp [dedSum, List.filter_append]

theorem applySteps_id_of_no_hit (steps : List Step)
    (h : ∀ st ∈ steps, st.hit = false) (init : Int × List String) :
    applySteps steps init = init := by
  induction steps generalizing init with
  | nil => rfl
  | cons stp rest ih =>
    obtain ⟨sc, ns⟩ := init
    have h0 := h stp (List.mem_cons_self _ _)
    simp only [applySteps, h0, Bool.false_eq_true, ite_false]
    exact ih (fun st hst => h st (List.mem_cons_of_mem _ hst)) _

theorem hitNotes_append (a b : List Step) :
    hitNotes (a ++ b) = hitNotes a ++ hitNotes b := by
  simp [hitNotes, List.filter_append]

theorem verdictSteps_one_le_ded {s : StaticRep} {t : Option TestRep} {st : Step}
    (hmem : st ∈ verdictSteps s t) (hhit : st.hit = true) : 1 ≤ st.ded := by
  have hcases : st ∈ staticSteps s ∨ st ∈ testSteps t := by
    simpa [verdictSteps] using hmem
  rcases hcases with h | h
  · simp only [staticSteps, List.mem_cons, List.not_mem_nil, or_false] at h
    rcases h with h | h | h | h | h | h | h <;> subst h <;> simp_all <;>
      first
        | omega
        | (have hlp : 0 < _ := List.length_pos.mpr hhit
           omega)
        | (obtain ⟨h1, h2⟩ := hhit
           first
             | omega
             | (have hlp : 0 < _ := List.length_pos.mpr h2
                omega))
  · cases t with
    | none => simp only [testSteps, List.mem_cons, List.not_mem_nil, or_false] at h
              rcases h with h | h <;> subst h <;> simp_all
    | some r => simp only [testSteps, List.mem_cons, List.not_mem_nil, or_false] at h
                rcases h with h | h <;> subst h <;> simp_all

theorem score_le_20_of_syntax_bad (s : StaticRep) (t : Option TestRep)
    (h : s.syn.ok = false) : (verdict s t).score ≤ 20 := by
  have hmem : (⟨!s.syn.ok, 80, "Syntax error: the file does not compile."⟩ : Step)
      ∈ verdictSteps s t := by
    simp [verdictSteps, staticSteps]
  have h80 := dedSum_le_of_mem hmem (by simp [h])
  have hfst := applySteps_fst (verdictSteps s t) 100 []
  simp only [verdict, verdictPre] at *
  rw [hfst]
  omega

theorem synCheck_never_raises (F : PyFrontend) (source : String) :
    ∃ r, synCheck F source = .ok r := by
  unfold synCheck compileCall
  cases F.parse source <;> simp

-- ----------------------------
-- Theorems: naming, complexity and style helper lemmas
-- ----------------------------

theorem fnNameExempt_eq (nm : String) : fnNameExempt nm = pyStartsWith nm "_" := by
  have h1 : ("_" : String).toList = ['_'] := rfl
  have h2 : ("__" : String).toList = ['_', '_'] := rfl
  unfold fnNameExempt pyStartsWith
  rw [h1, h2]
  cases hl : nm.toList with
  | nil => simp [List.isPrefixOf]
  | cons c rest =>
    cases hc : (c == '_') <;> simp [List.isPrefixOf, hc] <;>
      intros <;> assumption

theorem dnFold_naming : ∀ f : PyForest,
    (dnFold f).2.2 = forestFilterMap topLevelNamingIssue f
  | .nil => rfl
  | .cons (.node k cs) rest => by
    have ih := dnFold_naming rest
    cases k <;>
      simp [dnFold, forestFilterMap, topLevelNamingIssue, fnNameExempt_eq, ih] <;>
      split <;> simp [ih]

mutual

theorem incN_split : ∀ n : PyNode,
    incN n = weighN branchWeight n + weighN boolWeight n + weighN matchWeight n
  | .node k cs => by
    have ih := incF_split cs
    have hk : nodeInc k = branchWeight k + boolWeight k + matchWeight k := by
      cases k <;> simp [nodeInc, branchWeight, boolWeight, matchWeight]
    simp only [incN, weighN, hk, ih]
    omega

theorem incF_split : ∀ f : PyForest,
    incF f = weighF branchWeight f + weighF boolWeight f + weighF matchWeight f
  | .nil => by simp [incF, weighF]
  | .cons n rest => by
    have ih1 := incN_split n
    have ih2 := incF_split rest
    simp only [incF, weighF, ih1, ih2]
    omega

end

mutual

theorem visitN_map : ∀ n : PyNode,
    visitN n = (fnSubtreesN n).map (fun x => ⟨defName x, defLine x, complexityOf x⟩)
  | .node k cs => by
    have ih := visitF_map cs
    cases k <;> simp [visitN, fnSubtreesN, defName, defLine, ih]

theorem visitF_map : ∀ f : PyForest,
    visitF f = (fnSubtreesF f).map (fun x => ⟨defName x, defLine x, complexityOf x⟩)
  | .nil => rfl
  | .cons n rest => by
    have ih1 := visitN_map n
    have ih2 := visitF_map rest
    simp [visitF, fnSubtreesF, ih1, ih2]

end

theorem countP_flatMap_zero {α β : Type} (f : α → List β) (p : β → Bool)
    (xs : List α) (h : ∀ x, (f x).countP p = 0) :
    (xs.flatMap f).countP p = 0 := by
  induction xs with
  | nil => simp
  | cons x rest ih => simp [List.countP_append, h, ih]

theorem lineIssues_no_mixed_line (i : Nat) (l : List Char) :
    (lineIssues i l).countP
      (fun iss => iss.type == "MixedIndentation" && iss.line == none) = 0 := by
  have hA : (("LongLine" : String) == "MixedIndentation") = false := by decide
  have hB : (("TrailingWhitespace" : String) == "MixedIndentation") = false := by decide
  by_cases h1 : (pyRstrip l ['\n']).length > 100 <;>
    by_cases h2 : pyRstrip l ['\n'] ≠ pyRstrip (pyRstrip l ['\n']) [' ', '\t'] <;>
      simp [lineIssues, h1, h2, List.countP_cons, List.countP_append, hA, hB]

theorem lineIssues_no_mixed (i : Nat) (l : List Char) :
    (lineIssues i l).countP (fun iss => iss.type == "MixedIndentation") = 0 := by
  have hA : (("LongLine" : String) == "MixedIndentation") = false := by decide
  have hB : (("TrailingWhitespace" : String) == "MixedIndentation") = false := by decide
  by_cases h1 : (pyRstrip l ['\n']).length > 100 <;>
    by_cases h2 : pyRstrip l ['\n'] ≠ pyRstrip (pyRstrip l ['\n']) [' ', '\t'] <;>
      simp [lineIssues, h1, h2, List.countP_cons, List.countP_append, hA, hB]

-- ----------------------------
-- Claim theorems
-- ----------------------------

/-- C1: for every static report and optional test report, the verdict's
score lies in [0, 100] (it is clamped), and the level is determined solely
by the score through the fixed thresholds: score ≥ 90 gives Excellent,
score ≥ 75 gives Good, score ≥ 55 gives Fair, otherwise Poor. -/
theorem claim1_score_clamped_level_thresholds (s : StaticRep) (t : Option TestRep) :
    0 ≤ (verdict s t).score ∧ (verdict s t).score ≤ 100 ∧
    (verdict s t).level =
      (if (verdict s t).score ≥ 90 then "Excellent"
       else if (verdict s t).score ≥ 75 then "Good"
       else if (verdict s t).score ≥ 55 then "Fair"
       else "Poor") := by
  refine ⟨?_, ?_, rfl⟩
  · exact le_max_left 0 _
  · exact max_le (by norm_num) (min_le_left 100 _)

/-- C9: the verdict returns score 100 exactly when its notes list is empty;
the pre-clamp score is 100 minus the sum of the triggered deductions, and
the notes are exactly the triggered conditions' notes, one note each, in
the fixed order — nothing else changes the score or the notes. -/
theorem claim9_score_100_iff_notes_empty (s : StaticRep) (t : Option TestRep) :
    ((verdict s t).score = 100 ↔ (verdict s t).notes = []) ∧
    (verdictPre s t).1 = 100 - (dedSum (verdictSteps s t) : Int) ∧
    (verdict s t).notes = hitNotes (verdictSteps s t) := by
  have hfst : (verdictPre s t).1 = 100 - (dedSum (verdictSteps s t) : Int) :=
    applySteps_fst (verdictSteps s t) 100 []
  have hsnd : (verdictPre s t).2 = [] ++ hitNotes (verdictSteps s t) :=
    applySteps_snd (verdictSteps s t) 100 []
  have hnotes : (verdict s t).notes = hitNotes (verdictSteps s t) := by
    show (verdictPre s t).2 = _
    rw [hsnd]
    simp
  have hscore : (verdict s t).score =
      max 0 (min 100 (100 - (dedSum (verdictSteps s t) : Int))) := by
    show max 0 (min 100 (verdictPre s t).1) = _
    rw [hfst]
  refine ⟨?_, hfst, hnotes⟩
  rw [hnotes, hscore]
  unfold hitNotes
  constructor
  · intro h100
    have hd0 : dedSum (verdictSteps s t) = 0 := by omega
    rw [List.map_eq_nil_iff]
    by_contra hne
    obtain ⟨st, hst⟩ := List.exists_mem_of_ne_nil _ hne
    obtain ⟨hmem, hhit⟩ := List.mem_filter.mp hst
    have h1 := verdictSteps_one_le_ded hmem hhit
    have h2 := dedSum_le_of_mem hmem hhit
    omega
  · intro hempty
    have hfe : (verdictSteps s t).filter (fun st => st.hit) = [] :=
      List.map_eq_nil_iff.mp hempty
    have hd0 : dedSum (verdictSteps s t) = 0 := by
      unfold dedSum
      rw [hfe]
      rfl
    rw [hd0]
    norm_num

/-- C10: the verdict is a function of exactly the fields the scorer reads:
two inputs that agree on the syntax ok flag, the mixed-indentation and
long-line counters, the number of risk flags, the AST block's ok flag, its
module-docstring presence, missing-function-docstring count and
naming-issue count, and the test report's presence, ok flag and timed-out
flag, yield identical score, level and notes — comment statistics,
trailing-whitespace and tab counters, missing class docstrings and the
complexity entries never influence the verdict. -/
theorem claim10_verdict_reads_only_scored_fields
    (s₁ s₂ : StaticRep) (t₁ t₂ : Option TestRep)
    (hsyn : s₁.syn.ok = s₂.syn.ok)
    (hmix : s₁.style.counts.mixed_indentation = s₂.style.counts.mixed_indentation)
    (hll : s₁.style.counts.long_lines_gt_100 = s₂.style.counts.long_lines_gt_100)
    (hrk : s₁.risky_patterns.flags.length = s₂.risky_patterns.flags.length)
    (hao : s₁.ast.ok = s₂.ast.ok)
    (hmd : (dsField s₁).module_has_docstring = (dsField s₂).module_has_docstring)
    (hmfd : (dsField s₁).missing_function_docstrings
      = (dsField s₂).missing_function_docstrings)
    (hni : (dsField s₁).naming_issues.length = (dsField s₂).naming_issues.length)
    (htok : t₁.map (fun r => r.ok) = t₂.map (fun r => r.ok))
    (htto : t₁.map (fun r => r.timed_out) = t₂.map (fun r => r.timed_out)) :
    verdict s₁ t₁ = verdict s₂ t₂ := by
  have hsteps : verdictSteps s₁ t₁ = verdictSteps s₂ t₂ := by
    cases t₁ with
    | none =>
      cases t₂ with
      | none =>
        simp [verdictSteps, staticSteps, testSteps, hsyn, hmix, hll, hrk, hao,
          hmd, hmfd, hni]
      | some r₂ =>
        simp only [Option.map_none', Option.map_some'] at htok
        exact Option.noConfusion htok
    | some r₁ =>
      cases t₂ with
      | none =>
        simp only [Option.map_none', Option.map_some'] at htok
        exact Option.noConfusion htok
      | some r₂ =>
        simp only [Option.map_some', Option.some.injEq] at htok htto
        simp [verdictSteps, staticSteps, testSteps, hsyn, hmix, hll, hrk, hao,
          hmd, hmfd, hni, htok, htto]
  unfold verdict verdictPre
  rw [hsteps]

/-- C10 witness: two concrete reports that differ in comment statistics,
trailing-whitespace and tab counters, missing class docstrings, complexity
entries and captured test output, but agree on every scored field, receive
the identical verdict. -/
theorem claim10_witness :
    verdict c10A (some ⟨true, 0, false, "all tests passed", ""⟩) =
      verdict c10B (some ⟨true, 999, false, "", "noise"⟩) :=
  claim10_verdict_reads_only_scored_fields c10A c10B _ _
    rfl rfl rfl rfl rfl rfl rfl rfl rfl rfl

/-- C4: a report of a minimal valid file — syntax ok, no mixed indentation,
no long lines, no risk flags, AST analysis ok with a module docstring, no
missing function docstrings and no naming issues — combined with a
successful, non-timed-out sandbox run, is scored 100, and the rendered
summary carries exactly the single no-major-issues note. -/
theorem claim4_minimal_clean_file_scores_100 (s : StaticRep) (r : TestRep)
    (hsyn : s.syn.ok = true)
    (hmix : s.style.counts.mixed_indentation = 0)
    (hll : s.style.counts.long_lines_gt_100 = 0)
    (hrk : s.risky_patterns.flags = [])
    (hao : s.ast.ok = true)
    (hmd : (dsField s).module_has_docstring = true)
    (hmfd : (dsField s).missing_function_docstrings = 0)
    (hni : (dsField s).naming_issues = [])
    (hok : r.ok = true)
    (hto : r.timed_out = false) :
    (verdict s (some r)).score = 100 ∧
    renderedNotes (verdict s (some r)) = ["No major issues detected."] := by
  have hpre : verdictPre s (some r) = (100, []) := by
    apply applySteps_id_of_no_hit
    intro st hmem
    have hcases : st ∈ staticSteps s ∨ st ∈ testSteps (some r) := by
      simpa [verdictSteps] using hmem
    rcases hcases with h | h
    · simp only [staticSteps, List.mem_cons, List.not_mem_nil, or_false] at h
      rcases h with h | h | h | h | h | h | h <;> subst h <;>
        simp [hsyn, hmix, hll, hrk, hao, hmd, hmfd, hni]
    · simp only [testSteps, List.mem_cons, List.not_mem_nil, or_false] at h
      rcases h with h | h <;> subst h <;> simp [hok, hto]
  constructor
  · simp [verdict, hpre]
  · simp [renderedNotes, verdict, hpre]

/-- C4 witness: the pipeline's static analysis of the concrete minimal file
`minSource` (module docstring, one documented snake-case function), with a
clean sandbox pass, is scored 100 with the single no-major-issues line. -/
theorem claim4_witness :
    (verdict (static_analysis minFrontend minSource)
      (some ⟨true, 0, false, "", ""⟩)).score = 100 ∧
    renderedNotes (verdict (static_analysis minFrontend minSource)
      (some ⟨true, 0, false, "", ""⟩)) = ["No major issues detected."] :=
  claim4_minimal_clean_file_scores_100 _ _
    (by decide) (by decide) (by decide) (by decide) (by decide)
    (by decide) (by decide) (by decide) (by decide) (by decide)

/-- C2: a sandbox run result is produced if and only if the syntax check
returned ok; when the syntax is invalid the syntax result carries a
non-null error record, no sandbox run happens (the test report fed to the
verdict is None), and the verdict's score is at most 20. -/
theorem claim2_sandbox_iff_syntax_ok (F : PyFrontend) (T : Unit → TestRep)
    (source : String) :
    ((run_checks F T source).2.1.isSome = (static_analysis F source).syn.ok) ∧
    ((static_analysis F source).syn.ok = false →
      (static_analysis F source).syn.error.isSome = true ∧
      (run_checks F T source).2.1 = none ∧
      (run_checks F T source).2.2.score ≤ 20) := by
  constructor
  · by_cases h : (static_analysis F source).syn.ok <;> simp [run_checks, h]
  · intro hbad
    refine ⟨?_, ?_, ?_⟩
    · unfold static_analysis at hbad ⊢
      cases hp : F.parse source with
      | ok m => simp [synCheck, compileCall, hp] at hbad
      | error e => simp [synCheck, compileCall, hp]
    · simp [run_checks, hbad]
    · exact score_le_20_of_syntax_bad _ _ hbad

/-- C2 witness: for the concretely rejected source "def f(:" the error
record is present, the sandbox step is skipped, and the score is at
most 20. -/
theorem claim2_witness :
    (static_analysis badFrontend "def f(:").syn.error.isSome = true ∧
    (run_checks badFrontend stubTest "def f(:").2.1 = none ∧
    (run_checks badFrontend stubTest "def f(:").2.2.score ≤ 20 :=
  (claim2_sandbox_iff_syntax_ok badFrontend stubTest "def f(:").2 (by decide)

/-- C3: syntax_check never lets an exception escape its boundary: for every
front end and source it returns a result; the result is `{ok:true}` exactly
when the parse succeeds, and on a parse failure it is `{ok:false}` with an
error record carrying the failing line number, the column offset, the
offending line's text (trailing newlines stripped) and the message. -/
theorem claim3_syntax_check_never_raises (F : PyFrontend) (source : String) :
    (∃ r, synCheck F source = .ok r) ∧
    (synCheck F source = .ok ⟨true, none⟩ ↔ ∃ m, F.parse source = .ok m) ∧
    (∀ e, F.parse source = .error e →
      synCheck F source = .ok ⟨false,
        some ⟨"SyntaxError", e.msg, e.lineno, e.offset,
          ⟨pyRstrip (pyOr e.text "").toList ['\n']⟩⟩⟩) := by
  refine ⟨synCheck_never_raises F source, ?_, ?_⟩
  · cases hp : F.parse source with
    | ok m => simp [synCheck, compileCall, hp]
    | error e => simp [synCheck, compileCall, hp]
  · intro e hp
    simp [synCheck, compileCall, hp]

/-- C3 witness: the fixed SyntaxError of `badFrontend` is rendered into the
exact error record, with the line text's trailing newline stripped. -/
theorem claim3_witness :
    synCheck badFrontend "def f(:" =
      .ok ⟨false, some ⟨"SyntaxError", "invalid syntax", some 1, some 7, "def f(:"⟩⟩ := by
  have h := (claim3_syntax_check_never_raises badFrontend "def f(:").2.2
    ⟨"invalid syntax", some 1, some 7, some "def f(:\n"⟩ rfl
  have hs : (⟨pyRstrip (pyOr (some "def f(:\n") "").toList ['\n']⟩ : String)
      = "def f(:" := by decide
  rw [h, hs]

/-- C7: when the child process exceeds the timeout budget, safe_run returns
a normal result value — no exception propagates — with ok=false, the
sentinel returncode 124 and timed_out=true; fed to the verdict, that
outcome lowers the pre-clamp score by exactly 50 (30 for the failed run
plus 20 for the timeout) and appends both corresponding notes. -/
theorem claim7_timeout_sentinel_and_deduction_50 (s : StaticRep) (o e : Option String) :
    safe_run (.timedOut o e) =
      ⟨false, 124, pyOr o "", pyOr e "Process timed out.", true⟩ ∧
    (verdictPre s (some (testReportOf (safe_run (.timedOut o e))))).1 =
      (verdictPre s none).1 - 50 ∧
    (verdictPre s (some (testReportOf (safe_run (.timedOut o e))))).2 =
      (verdictPre s none).2 ++
        ["Unit test failed (or crashed).", "Unit test timed out."] := by
  have hts : testSteps (some (testReportOf (safe_run (.timedOut o e)))) =
      [⟨true, 30, "Unit test failed (or crashed)."⟩,
       ⟨true, 20, "Unit test timed out."⟩] := by
    simp [testSteps, testReportOf, safe_run]
  refine ⟨rfl, ?_, ?_⟩
  · have h1 : (verdictPre s (some (testReportOf (safe_run (.timedOut o e))))).1 =
        100 - (dedSum (verdictSteps s (some (testReportOf (safe_run (.timedOut o e))))) : Int) :=
      applySteps_fst _ 100 []
    have h2 : (verdictPre s (none : Option TestRep)).1 =
        100 - (dedSum (verdictSteps s none) : Int) :=
      applySteps_fst _ 100 []
    rw [h1, h2]
    unfold verdictSteps
    rw [hts, dedSum_append, dedSum_append]
    have hd1 : dedSum [(⟨true, 30, "Unit test failed (or crashed)."⟩ : Step),
        ⟨true, 20, "Unit test timed out."⟩] = 50 := rfl
    have hd2 : dedSum (testSteps (none : Option TestRep)) = 0 := rfl
    rw [hd1, hd2]
    push_cast
    ring
  · have h1 : (verdictPre s (some (testReportOf (safe_run (.timedOut o e))))).2 =
        [] ++ hitNotes (verdictSteps s (some (testReportOf (safe_run (.timedOut o e))))) :=
      applySteps_snd _ 100 []
    have h2 : (verdictPre s (none : Option TestRep)).2 =
        [] ++ hitNotes (verdictSteps s none) :=
      applySteps_snd _ 100 []
    rw [h1, h2]
    unfold verdictSteps
    rw [hts, hitNotes_append, hitNotes_append]
    have hn1 : hitNotes [(⟨true, 30, "Unit test failed (or crashed)."⟩ : Step),
        ⟨true, 20, "Unit test timed out."⟩] =
        ["Unit test failed (or crashed).", "Unit test timed out."] := rfl
    have hn2 : hitNotes (testSteps (none : Option TestRep)) = [] := rfl
    rw [hn1, hn2]
    simp

/-- C5: every function or method definition (synchronous or asynchronous)
is reported with complexity equal to 1, plus 1 for each conditional branch,
loop, exception-handling block, exception clause and resource-scoping block
anywhere in its subtree (control flow inside nested definitions included),
plus max(1, n-1) for each short-circuit boolean combination with n
operands, plus 1 for each pattern-match construct. -/
theorem claim5_complexity_formula (m : PyModule) :
    moduleComplexities m = (fnSubtreesF m.body).map
      (fun n => ⟨defName n, defLine n,
        1 + weighN branchWeight n + weighN boolWeight n + weighN matchWeight n⟩) := by
  show visitF m.body = _
  rw [visitF_map]
  refine List.map_congr_left (fun n hn => ?_)
  simp only [complexityOf, incN_split n, CompEntry.mk.injEq, true_and]
  omega

/-- C6 (amended): only top-level function and async-function definitions
are naming-checked — the emitted naming issues are exactly the module-body
nodes failing their pattern (functions: lowercase snake, exempt on a
leading underscore, the dunder exemption being subsumed by it; classes:
Pascal case, exempt on a leading underscore); method names inside class
bodies are never inspected. In particular a top-level MyFunction is
flagged and _Helper is exempt. -/
theorem claim6_amended_top_level_naming (m : PyModule) :
    ((docstrings_and_naming m).naming_issues
      = forestFilterMap topLevelNamingIssue m.body) ∧
    ((docstrings_and_naming
        ⟨none, .cons (.node (.kFunctionDef "MyFunction" 1 none) .nil) .nil⟩).naming_issues
      = [⟨"FunctionNameNotSnakeCase", "MyFunction", 1⟩]) ∧
    ((docstrings_and_naming
        ⟨none, .cons (.node (.kFunctionDef "_Helper" 1 none) .nil) .nil⟩).naming_issues
      = []) := by
  refine ⟨?_, by decide, by decide⟩
  show (dnFold m.body).2.2 = _
  exact dnFold_naming m.body

/-- C6 counterexample: "BadMethod", a method of the top-level class
Container, fails the snake pattern and has no leading underscore, yet no
naming issue is emitted — the analyzer never inspects method names, so the
claim as stated is false. -/
theorem claim6_counterexample :
    isLowerSnake "BadMethod" = false ∧
    pyStartsWith "BadMethod" "_" = false ∧
    (docstrings_and_naming methodModule).naming_issues = [] := by
  decide

/-- C8 (amended): the mixed-indentation flag is set exactly when some line
begins with a tab character and some (necessarily different) line begins
with a space character; when set, the scanner emits exactly one whole-file
MixedIndentation issue, carrying no line number, at the end of the issue
list, of which the returned report keeps the first 200 entries. -/
theorem claim8_amended_mixed_keyed_on_first_char (source : String) :
    ((style_check source).counts.mixed_indentation =
      if hasTabIndent (pySplitKeepends source) && hasSpaceIndent (pySplitKeepends source)
      then 1 else 0) ∧
    ((styleIssuesRaw source).countP
      (fun iss => iss.type == "MixedIndentation" && iss.line == none) =
      (style_check source).counts.mixed_indentation) ∧
    ((styleIssuesRaw source).countP (fun iss => iss.type == "MixedIndentation") =
      (style_check source).counts.mixed_indentation) ∧
    ((style_check source).issues = (styleIssuesRaw source).take 200) := by
  have hmix : (style_check source).counts.mixed_indentation =
      (if hasTabIndent (pySplitKeepends source) && hasSpaceIndent (pySplitKeepends source)
       then 1 else 0) := rfl
  have hC : (("MixedIndentation" : String) == "MixedIndentation") = true := by decide
  refine ⟨hmix, ?_, ?_, rfl⟩
  · rw [hmix]
    unfold styleIssuesRaw
    have hz := countP_flatMap_zero (fun (p : Nat × List Char) => lineIssues p.1 p.2)
      (fun iss => iss.type == "MixedIndentation" && iss.line == none)
      (List.enumFrom 1 (pySplitKeepends source))
      (fun x => lineIssues_no_mixed_line x.1 x.2)
    rw [List.countP_append, hz]
    by_cases h : hasTabIndent (pySplitKeepends source) && hasSpaceIndent (pySplitKeepends source) <;>
      simp [h, List.countP_cons, hC]
  · rw [hmix]
    unfold styleIssuesRaw
    have hz := countP_flatMap_zero (fun (p : Nat × List Char) => lineIssues p.1 p.2)
      (fun iss => iss.type == "MixedIndentation")
      (List.enumFrom 1 (pySplitKeepends source))
      (fun x => lineIssues_no_mixed x.1 x.2)
    rw [List.countP_append, hz]
    by_cases h : hasTabIndent (pySplitKeepends source) && hasSpaceIndent (pySplitKeepends source) <;>
      simp [h, List.countP_cons, hC]

/-- C8 counterexample: in the two-line file " \ta\n b" the first line's
indentation run " \t" uses a tab and the second line's " " uses a space,
yet the flag stays 0 and no MixedIndentation issue is emitted: style_check
keys on a line's first character only, so indentation that merely contains
a tab after a space never sets the flag. -/
theorem claim8_counterexample :
    ((pySplitKeepends " \ta\n b").map (fun l => (indentRun l).contains '\t')
      = [true, false]) ∧
    ((pySplitKeepends " \ta\n b").map (fun l => (indentRun l).contains ' ')
      = [true, true]) ∧
    ((style_check " \ta\n b").counts.mixed_indentation = 0) ∧
    ((styleIssuesRaw " \ta\n b").countP (fun iss => iss.type == "MixedIndentation") = 0) := by
  decide

end ProgramTester
